import Mathlib

/-!
# Verification of the `storagetests` conformance suite

Shallow embedding of `src/storagetests.go`: a backend-agnostic conformance
test suite for a pluggable storage abstraction.  The suite is a catalogue of
named scenarios, each a function of a storage factory (`CreateFunc`) and an
optional configuration-loading factory (`LoadFromConfigFunc`).

The backend is abstract: `StorageOps σ ι κ` packages all operations of the
storage contract as state-passing functions over an arbitrary world state `σ`
(covering any global backing store shared between factory-produced
instances), instance handles `ι`, and configuration blobs `κ`.  A scenario
body is a function of the operations, the optional config loader, a
fresh-identifier supply (modelling external unit-ID generation), and the
initial world state; it returns the scenario `Outcome` (skip flag, panic
flag, ordered assertion results, named nested sub-tests) together with the
final world state.  `testify`-style assertions record a boolean and continue;
a method call on a `nil` Go interface value is modelled as a panic that ends
the body.
-/

namespace StorageTests

/-- A todo-list item: data payload and done flag (external unit model,
specified at its boundary in the spec). -/
structure TodoItem where
  data : String
  done : Bool
deriving DecidableEq, Repr

/-- The polymorphic unit model (external collaborator, modelled at its
boundary): plain unit, plain/markdown/code text, todo list, composite list.
Every variant carries an identifier and a title. -/
inductive AUnit where
  | base (id title : String)
  | textPlain (id title data : String)
  | textMarkdown (id title data : String)
  | textCode (id title data language : String)
  | todo (id title : String) (items : List TodoItem)
  | list (id title : String) (items : List AUnit)

/-- `ID()` of a unit. -/
def AUnit.id : AUnit → String
  | .base i _ => i
  | .textPlain i _ _ => i
  | .textMarkdown i _ _ => i
  | .textCode i _ _ _ => i
  | .todo i _ _ => i
  | .list i _ _ => i

/-- Closed set of unit type tags. -/
inductive Ty where
  | base | textPlain | textMarkdown | textCode | todo | list
deriving DecidableEq, Repr

/-- `Type()` of a unit. -/
def AUnit.type : AUnit → Ty
  | .base .. => .base
  | .textPlain .. => .textPlain
  | .textMarkdown .. => .textMarkdown
  | .textCode .. => .textCode
  | .todo .. => .todo
  | .list .. => .list

/-- Modelled from the spec: `Type().String()` of the external unit package
(the concrete tag strings are not part of this repository; the suite only
uses them as nested sub-test names, one per type). -/
def Ty.str : Ty → String
  | .base => "Unit"
  | .textPlain => "TextPlain"
  | .textMarkdown => "TextMarkdown"
  | .textCode => "TextCode"
  | .todo => "Todo"
  | .list => "List"

mutual

/-- Structural equality oracle `unit.Equal` (external collaborator; the spec
requires: equal iff same type tag and all type-specific fields match
recursively, composite lists element-wise and order-sensitive). -/
def unitEqual : AUnit → AUnit → Bool
  | .base i t, .base i' t' => i == i' && t == t'
  | .textPlain i t d, .textPlain i' t' d' => i == i' && t == t' && d == d'
  | .textMarkdown i t d, .textMarkdown i' t' d' => i == i' && t == t' && d == d'
  | .textCode i t d lg, .textCode i' t' d' lg' =>
      i == i' && t == t' && d == d' && lg == lg'
  | .todo i t its, .todo i' t' its' => i == i' && t == t' && its == its'
  | .list i t us, .list i' t' us' => i == i' && t == t' && unitListEqual us us'
  | _, _ => false

/-- Element-wise, order-sensitive equality of unit sequences. -/
def unitListEqual : List AUnit → List AUnit → Bool
  | [], [] => true
  | u :: us, v :: vs => unitEqual u v && unitListEqual us vs
  | _, _ => false

end

/-- `unit.Equal(u, l)` where `l` came back from `LoadUnit` and may be the
nil interface: a nil operand is never structurally equal to a unit. -/
def unitEqualOpt (u : AUnit) : Option AUnit → Bool
  | some v => unitEqual u v
  | none => false

/-- The storage contract, as state-passing operations over an abstract world
state `σ`, instance handles `ι` and configuration blobs `κ`.  A returned
`Bool` is `true` iff the Go method returned a non-nil `error`. -/
structure StorageOps (σ ι κ : Type) where
  /-- `CreateFunc`: produce a fresh storage instance. -/
  createStorage : σ → ι × σ
  /-- `Create() error`. -/
  create : ι → σ → Bool × σ
  /-- `IsCreated() bool` (pure query, no side effect). -/
  isCreated : ι → σ → Bool
  /-- `Remove() error`. -/
  remove : ι → σ → Bool × σ
  /-- `SaveUnit(unit) error`; the argument may be the nil interface. -/
  saveUnit : ι → Option AUnit → σ → Bool × σ
  /-- `LoadUnit(id) (unit, error)`; the returned unit may be nil. -/
  loadUnit : ι → String → σ → (Option AUnit × Bool) × σ
  /-- `RemoveUnit(unit) error`; the argument may be the nil interface. -/
  removeUnit : ι → Option AUnit → σ → Bool × σ
  /-- `json.Marshal` of the instance configuration. -/
  marshal : ι → σ → (κ × Bool) × σ
  /-- testify `is.NotNil` on the marshalled blob. -/
  cfgIsNil : κ → Bool

/-- `LoadFromConfigFunc`: reconstruct a storage instance from a blob; may
return a nil instance and/or an error. -/
def LoadCfg (σ ι κ : Type) := κ → σ → (Option ι × Bool) × σ

/-- Outcome of a nested sub-test: did the body panic, and the ordered
results of its assertions (`true` = assertion held). -/
structure SubOutcome where
  panicked : Bool
  asserts : List Bool
deriving DecidableEq, Repr

/-- Outcome of one catalogue scenario: skip flag (`t.SkipNow`), panic flag,
ordered assertion results, and the named nested sub-tests it registered. -/
structure Outcome where
  skipped : Bool
  panicked : Bool
  asserts : List Bool
  subtests : List (String × SubOutcome)
deriving DecidableEq, Repr

/-- A nested sub-test passes iff it did not panic and all assertions held. -/
def SubOutcome.ok (o : SubOutcome) : Bool :=
  !o.panicked && o.asserts.all fun b => b

/-- A scenario passes iff it was not skipped, did not panic, all assertions
held, and every nested sub-test passes. -/
def Outcome.allPass (o : Outcome) : Bool :=
  !o.skipped && !o.panicked && (o.asserts.all fun b => b) &&
    (o.subtests.all fun p => p.2.ok)

/-- A scenario fails iff it was not skipped and something went wrong: a skip
is a first-class outcome distinct from pass and fail. -/
def Outcome.failed (o : Outcome) : Bool :=
  !o.skipped && (o.panicked || !(o.asserts.all fun b => b) ||
    !(o.subtests.all fun p => p.2.ok))

/-- Scenario "Storage is not created initially when initialized first time
with given arguments" (storagetests.go:33-35). -/
def testNotCreatedInitially {σ ι κ : Type} (ops : StorageOps σ ι κ)
    (_l : Option (LoadCfg σ ι κ)) (_ids : Nat → String) (st : σ) : Outcome × σ :=
  let p := ops.createStorage st
  (⟨false, false, [!ops.isCreated p.1 p.2], []⟩, p.2)

/-- Scenario "Storage can be successfully created" (storagetests.go:36-40). -/
def testCanBeCreated {σ ι κ : Type} (ops : StorageOps σ ι κ)
    (_l : Option (LoadCfg σ ι κ)) (_ids : Nat → String) (st : σ) : Outcome × σ :=
  let p := ops.createStorage st
  let q := ops.create p.1 p.2
  (⟨false, false, [!q.1, ops.isCreated p.1 q.2], []⟩, q.2)

/-- Scenario "Storage can not be used before it will be created"
(storagetests.go:41-49): on a fresh, uncreated instance, save and remove of
a unit must error, and `LoadUnit("123")` must error and return nil. -/
def testNotUsableBeforeCreate {σ ι κ : Type} (ops : StorageOps σ ι κ)
    (_l : Option (LoadCfg σ ι κ)) (ids : Nat → String) (st : σ) : Outcome × σ :=
  let p := ops.createStorage st
  let u := AUnit.base (ids 0) ""
  let q := ops.saveUnit p.1 (some u) p.2
  let r := ops.removeUnit p.1 (some u) q.2
  let w := ops.loadUnit p.1 "123" r.2
  (⟨false, false, [q.1, r.1, w.1.2, w.1.1.isNone], []⟩, w.2)

/-- Scenario "Storage can be removed if not created before"
(storagetests.go:50-53). -/
def testRemoveNotCreated {σ ι κ : Type} (ops : StorageOps σ ι κ)
    (_l : Option (LoadCfg σ ι κ)) (_ids : Nat → String) (st : σ) : Outcome × σ :=
  let p := ops.createStorage st
  let q := ops.remove p.1 p.2
  (⟨false, false, [!q.1], []⟩, q.2)

/-- Scenario "Storage can be removed if was created before"
(storagetests.go:54-58). -/
def testRemoveCreated {σ ι κ : Type} (ops : StorageOps σ ι κ)
    (_l : Option (LoadCfg σ ι κ)) (_ids : Nat → String) (st : σ) : Outcome × σ :=
  let p := ops.createStorage st
  let q := ops.create p.1 p.2
  let r := ops.remove p.1 q.2
  (⟨false, false, [!q.1, !r.1], []⟩, r.2)

/-- Scenario "Storage is not created when removed" (storagetests.go:59-64):
create and remove one instance, then a second fresh instance from the same
factory must report `IsCreated()` false. -/
def testNotCreatedWhenRemoved {σ ι κ : Type} (ops : StorageOps σ ι κ)
    (_l : Option (LoadCfg σ ι κ)) (_ids : Nat → String) (st : σ) : Outcome × σ :=
  let p := ops.createStorage st
  let q := ops.create p.1 p.2
  let r := ops.remove p.1 q.2
  let w := ops.createStorage r.2
  (⟨false, false, [!q.1, !r.1, !ops.isCreated w.1 w.2], []⟩, w.2)

/-- Fixture `unit.NewUnit(unit.OptionTitle("MyUnit"))`. -/
def fixtureBase (ids : Nat → String) : AUnit := .base (ids 0) "MyUnit"

/-- Fixture `unit.NewTextPlain(OptionTitle("MyUnit"), OptionTextPlainData("MyData"))`. -/
def fixtureTextPlain (ids : Nat → String) : AUnit :=
  .textPlain (ids 1) "MyUnit" "MyData"

/-- Fixture `unit.NewTextMarkdown(OptionTitle("MyUnit"), OptionTextMarkdownData("MyData"))`. -/
def fixtureTextMarkdown (ids : Nat → String) : AUnit :=
  .textMarkdown (ids 2) "MyUnit" "MyData"

/-- Fixture `unit.NewTextCode(OptionTitle("MyUnit"), OptionTextCodeData("MyData"), OptionTextCodeLanguage("MyLang"))`. -/
def fixtureTextCode (ids : Nat → String) : AUnit :=
  .textCode (ids 3) "MyUnit" "MyData" "MyLang"

/-- Fixture todo unit with items `"Data1"`/done and `"Data2"`/not done
(storagetests.go:71-78). -/
def fixtureTodo (ids : Nat → String) : AUnit :=
  .todo (ids 4) "MyUnit" [⟨"Data1", true⟩, ⟨"Data2", false⟩]

/-- The `unitsTests` fixture slice (storagetests.go:80-86): one instance of
every simple variant. -/
def fixturesList (ids : Nat → String) : List AUnit :=
  [fixtureBase ids, fixtureTextPlain ids, fixtureTextMarkdown ids,
   fixtureTextCode ids, fixtureTodo ids]

/-- Fixture list unit containing one of each simple variant
(storagetests.go:119-126). -/
def listFixture (ids : Nat → String) : AUnit :=
  .list (ids 5) "MyUnit" (fixturesList ids)

/-- Body of one nested sub-test of the "supported simple unit types"
scenario (storagetests.go:89-101): fresh storage, create, save `u`, load by
`u.ID()`, assert no error and structural equality, remove the loaded unit,
reload the same ID, assert error and nil.  `l.ID()` on a nil loaded unit is
a panic. -/
def simpleRoundTrip {σ ι κ : Type} (ops : StorageOps σ ι κ) (u : AUnit)
    (st : σ) : SubOutcome × σ :=
  let p := ops.createStorage st
  let q := ops.create p.1 p.2
  let r := ops.saveUnit p.1 (some u) q.2
  let w := ops.loadUnit p.1 u.id r.2
  let a := [!q.1, !r.1, !w.1.2, unitEqualOpt u w.1.1]
  let x := ops.removeUnit p.1 w.1.1 w.2
  match w.1.1 with
  | none => (⟨true, a ++ [!x.1]⟩, x.2)
  | some v =>
    let y := ops.loadUnit p.1 v.id x.2
    (⟨false, a ++ [!x.1, y.1.2, y.1.1.isNone]⟩, y.2)

/-- The `for _, u := range unitsTests { t.Run(u.Type().String(), ...) }`
loop (storagetests.go:88-102): one nested sub-test per unit, named by its
type tag. -/
def runSubtests {σ ι κ : Type} (ops : StorageOps σ ι κ) :
    List AUnit → σ → List (String × SubOutcome) × σ
  | [], st => ([], st)
  | u :: us, st =>
    let p := simpleRoundTrip ops u st
    let rest := runSubtests ops us p.2
    ((u.type.str, p.1) :: rest.1, rest.2)

/-- Scenario "Storage can handle all supported simple unit types"
(storagetests.go:65-103). -/
def testSimpleUnits {σ ι κ : Type} (ops : StorageOps σ ι κ)
    (_l : Option (LoadCfg σ ι κ)) (ids : Nat → String) (st : σ) : Outcome × σ :=
  let subs := runSubtests ops (fixturesList ids) st
  (⟨false, false, [], subs.1⟩, subs.2)

/-- Scenario "Storage can handle list unit" (storagetests.go:104-143): save
each of the five children individually, then the list; load the list, assert
structural equality; remove it; reload must error with nil.  No nested
sub-tests are registered. -/
def testListUnit {σ ι κ : Type} (ops : StorageOps σ ι κ)
    (_l : Option (LoadCfg σ ι κ)) (ids : Nat → String) (st : σ) : Outcome × σ :=
  let ul := listFixture ids
  let p := ops.createStorage st
  let q := ops.create p.1 p.2
  let e1 := ops.saveUnit p.1 (some (fixtureBase ids)) q.2
  let e2 := ops.saveUnit p.1 (some (fixtureTextPlain ids)) e1.2
  let e3 := ops.saveUnit p.1 (some (fixtureTextMarkdown ids)) e2.2
  let e4 := ops.saveUnit p.1 (some (fixtureTextCode ids)) e3.2
  let e5 := ops.saveUnit p.1 (some (fixtureTodo ids)) e4.2
  let e6 := ops.saveUnit p.1 (some ul) e5.2
  let w := ops.loadUnit p.1 ul.id e6.2
  let a := [!q.1, !e1.1, !e2.1, !e3.1, !e4.1, !e5.1, !e6.1, !w.1.2,
            unitEqualOpt ul w.1.1]
  let x := ops.removeUnit p.1 w.1.1 w.2
  match w.1.1 with
  | none => (⟨false, true, a ++ [!x.1], []⟩, x.2)
  | some v =>
    let y := ops.loadUnit p.1 v.id x.2
    (⟨false, false, a ++ [!x.1, y.1.2, y.1.1.isNone], []⟩, y.2)

/-- Scenario "Nil unit cannot be saved" (storagetests.go:144-148). -/
def testNilSave {σ ι κ : Type} (ops : StorageOps σ ι κ)
    (_l : Option (LoadCfg σ ι κ)) (_ids : Nat → String) (st : σ) : Outcome × σ :=
  let p := ops.createStorage st
  let q := ops.create p.1 p.2
  let r := ops.saveUnit p.1 none q.2
  (⟨false, false, [!q.1, r.1], []⟩, r.2)

/-- Scenario "Nil unit cannot be removed" (storagetests.go:149-153). -/
def testNilRemove {σ ι κ : Type} (ops : StorageOps σ ι κ)
    (_l : Option (LoadCfg σ ι κ)) (_ids : Nat → String) (st : σ) : Outcome × σ :=
  let p := ops.createStorage st
  let q := ops.create p.1 p.2
  let r := ops.removeUnit p.1 none q.2
  (⟨false, false, [!q.1, r.1], []⟩, r.2)

/-- Scenario "Empty ID cannot be used to load unit"
(storagetests.go:154-160). -/
def testEmptyIdLoad {σ ι κ : Type} (ops : StorageOps σ ι κ)
    (_l : Option (LoadCfg σ ι κ)) (_ids : Nat → String) (st : σ) : Outcome × σ :=
  let p := ops.createStorage st
  let q := ops.create p.1 p.2
  let w := ops.loadUnit p.1 "" q.2
  (⟨false, false, [!q.1, w.1.2, w.1.1.isNone], []⟩, w.2)

/-- Scenario "Directory config can be JSON serialized/deserialized "
(storagetests.go:161-183): skipped outright when the config loader is nil;
otherwise save a plain-text unit, marshal the instance, reconstruct via the
loader, and load the unit's original ID from the reconstructed instance,
asserting success and structural equality.  `LoadUnit` on a nil
reconstructed instance is a panic. -/
def testConfigRoundTrip {σ ι κ : Type} (ops : StorageOps σ ι κ)
    (l : Option (LoadCfg σ ι κ)) (ids : Nat → String) (st : σ) : Outcome × σ :=
  match l with
  | none => (⟨true, false, [], []⟩, st)
  | some lf =>
    let u := AUnit.textPlain (ids 0) "MyUnit" "MyData"
    let p := ops.createStorage st
    let q := ops.create p.1 p.2
    let r := ops.saveUnit p.1 (some u) q.2
    let m := ops.marshal p.1 r.2
    let a := [!q.1, !r.1, !m.1.2, !ops.cfgIsNil m.1.1]
    let w := lf m.1.1 m.2
    let a := a ++ [!w.1.2, w.1.1.isSome]
    match w.1.1 with
    | none => (⟨false, true, a, []⟩, w.2)
    | some s2 =>
      let y := ops.loadUnit s2 u.id w.2
      (⟨false, false, a ++ [!y.1.2, y.1.1.isSome, unitEqualOpt u y.1.1], []⟩, y.2)

/-- One catalogue entry: title and test function (the `tests` slice element
type, storagetests.go:29-32). -/
structure TestCase (σ ι κ : Type) where
  title : String
  testFunc : StorageOps σ ι κ → Option (LoadCfg σ ι κ) → (Nat → String) → σ →
    Outcome × σ

/-- The ordered scenario catalogue (the `tests` slice,
storagetests.go:29-184). -/
def tests (σ ι κ : Type) : List (TestCase σ ι κ) :=
  [⟨"Storage is not created initially when initialized first time with given arguments",
    testNotCreatedInitially⟩,
   ⟨"Storage can be successfully created", testCanBeCreated⟩,
   ⟨"Storage can not be used before it will be created", testNotUsableBeforeCreate⟩,
   ⟨"Storage can be removed if not created before", testRemoveNotCreated⟩,
   ⟨"Storage can be removed if was created before", testRemoveCreated⟩,
   ⟨"Storage is not created when removed", testNotCreatedWhenRemoved⟩,
   ⟨"Storage can handle all supported simple unit types", testSimpleUnits⟩,
   ⟨"Storage can handle list unit", testListUnit⟩,
   ⟨"Nil unit cannot be saved", testNilSave⟩,
   ⟨"Nil unit cannot be removed", testNilRemove⟩,
   ⟨"Empty ID cannot be used to load unit", testEmptyIdLoad⟩,
   ⟨"Directory config can be JSON serialized/deserialized ", testConfigRoundTrip⟩]

/-- Run the catalogue in order, registering one named sub-test per entry
(the loop in `RunStorageTests`, storagetests.go:22-27). -/
def runCases {σ ι κ : Type} (ops : StorageOps σ ι κ)
    (l : Option (LoadCfg σ ι κ)) (ids : Nat → String) :
    List (TestCase σ ι κ) → σ → List (String × Outcome) × σ
  | [], st => ([], st)
  | tc :: rest, st =>
    let p := tc.testFunc ops l ids st
    let r := runCases ops l ids rest p.2
    ((tc.title, p.1) :: r.1, r.2)

/-- `RunStorageTests` (storagetests.go:22-27): full test run for all
test-cases for a given storage. -/
def RunStorageTests {σ ι κ : Type} (ops : StorageOps σ ι κ)
    (l : Option (LoadCfg σ ι κ)) (ids : Nat → String) (st : σ) :
    List (String × Outcome) × σ :=
  runCases ops l ids (tests σ ι κ) st

/-! ## A concrete in-memory backend

Used to instantiate the universally quantified theorems at concrete inputs.
One `MemInst` per `createStorage` call; instance handles are indices into
the world's instance list, configuration blobs are those same indices. -/

/-- One in-memory storage instance: created flag and stored units. -/
structure MemInst where
  created : Bool
  units : List AUnit

/-- World state of the in-memory backend: all instances produced so far. -/
structure MemSt where
  insts : List MemInst

/-- Update the `i`-th instance in place (no-op when out of range). -/
def updInst : List MemInst → Nat → (MemInst → MemInst) → List MemInst
  | [], _, _ => []
  | m :: ms, 0, f => f m :: ms
  | m :: ms, n + 1, f => m :: updInst ms n f

/-- Save with last-write-wins overwrite by identifier. -/
def putUnit (us : List AUnit) (u : AUnit) : List AUnit :=
  if us.any fun v => v.id == u.id then
    us.map fun v => if v.id == u.id then u else v
  else us ++ [u]

/-- Look a unit up by identifier. -/
def findUnit (us : List AUnit) (i : String) : Option AUnit :=
  us.find? fun v => v.id == i

/-- Delete a unit by identifier. -/
def delUnit (us : List AUnit) (i : String) : List AUnit :=
  us.filter fun v => !(v.id == i)

/-- The in-memory backend: unit operations succeed only on a created
instance, loads of empty or unknown identifiers fail with a nil unit. -/
def memOps : StorageOps MemSt Nat Nat where
  createStorage st := (st.insts.length, ⟨st.insts ++ [⟨false, []⟩]⟩)
  create i st := (false, ⟨updInst st.insts i fun m => ⟨true, m.units⟩⟩)
  isCreated i st :=
    match st.insts.get? i with
    | some m => m.created
    | none => false
  remove i st := (false, ⟨updInst st.insts i fun _ => ⟨false, []⟩⟩)
  saveUnit i u st :=
    match st.insts.get? i, u with
    | some m, some uu =>
      if m.created then
        (false, ⟨updInst st.insts i fun m => ⟨m.created, putUnit m.units uu⟩⟩)
      else (true, st)
    | _, _ => (true, st)
  loadUnit i s st :=
    match st.insts.get? i with
    | some m =>
      if m.created && s ≠ "" then
        match findUnit m.units s with
        | some u => ((some u, false), st)
        | none => ((none, true), st)
      else ((none, true), st)
    | none => ((none, true), st)
  removeUnit i u st :=
    match st.insts.get? i, u with
    | some m, some uu =>
      if m.created then
        (false, ⟨updInst st.insts i fun m => ⟨m.created, delUnit m.units uu.id⟩⟩)
      else (true, st)
    | _, _ => (true, st)
  marshal i st := ((i, false), st)
  cfgIsNil _ := false

/-- Config loader of the in-memory backend: the blob is the instance
handle itself. -/
def memLoad : LoadCfg MemSt Nat Nat := fun k st => ((some k, false), st)

/-- A concrete fresh-identifier supply for the unit fixtures. -/
def idn : Nat → String
  | 0 => "id0"
  | 1 => "id1"
  | 2 => "id2"
  | 3 => "id3"
  | 4 => "id4"
  | 5 => "id5"
  | _ => "idZ"

/-! ## Required outcomes, stated from the specification's words -/

/-- Follows the spec's words for the per-variant round trip: creating a
fresh storage and creating it succeed, saving the unit succeeds, loading by
the unit's ID succeeds and yields a unit structurally equal to the saved
one, removing the loaded unit succeeds, and reloading the same ID fails
with an error and a nil unit. -/
def roundTripOk {σ ι κ : Type} (ops : StorageOps σ ι κ) (u : AUnit)
    (st : σ) : Prop :=
  let p := ops.createStorage st
  let q := ops.create p.1 p.2
  let r := ops.saveUnit p.1 (some u) q.2
  let w := ops.loadUnit p.1 u.id r.2
  q.1 = false ∧ r.1 = false ∧ w.1.2 = false ∧
    ∃ v, w.1.1 = some v ∧ unitEqual u v = true ∧
      (let x := ops.removeUnit p.1 (some v) w.2
       let y := ops.loadUnit p.1 v.id x.2
       x.1 = false ∧ y.1.2 = true ∧ y.1.1 = none)

/-- The required outcome of the whole "supported simple unit types"
scenario: every variant in the fixture list meets `roundTripOk`, in order,
each against the world state left by the previous sub-test. -/
def allRoundTripsOk {σ ι κ : Type} (ops : StorageOps σ ι κ) :
    List AUnit → σ → Prop
  | [], _ => True
  | u :: us, st =>
    roundTripOk ops u st ∧ allRoundTripsOk ops us (simpleRoundTrip ops u st).2

/-- Follows the spec's words for the composite-list round trip: creating
the storage succeeds, saving each of the five children individually and
then the list succeeds, loading the list by its ID succeeds with a unit
deeply and order-sensitively equal to the original list, removing the
loaded list succeeds, and reloading its ID fails with an error and a nil
unit. -/
def listRoundTripOk {σ ι κ : Type} (ops : StorageOps σ ι κ)
    (ids : Nat → String) (st : σ) : Prop :=
  let p := ops.createStorage st
  let q := ops.create p.1 p.2
  let e1 := ops.saveUnit p.1 (some (fixtureBase ids)) q.2
  let e2 := ops.saveUnit p.1 (some (fixtureTextPlain ids)) e1.2
  let e3 := ops.saveUnit p.1 (some (fixtureTextMarkdown ids)) e2.2
  let e4 := ops.saveUnit p.1 (some (fixtureTextCode ids)) e3.2
  let e5 := ops.saveUnit p.1 (some (fixtureTodo ids)) e4.2
  let e6 := ops.saveUnit p.1 (some (listFixture ids)) e5.2
  let w := ops.loadUnit p.1 (listFixture ids).id e6.2
  q.1 = false ∧ e1.1 = false ∧ e2.1 = false ∧ e3.1 = false ∧ e4.1 = false ∧
    e5.1 = false ∧ e6.1 = false ∧ w.1.2 = false ∧
    ∃ v, w.1.1 = some v ∧ unitEqual (listFixture ids) v = true ∧
      (let x := ops.removeUnit p.1 (some v) w.2
       let y := ops.loadUnit p.1 v.id x.2
       x.1 = false ∧ y.1.2 = true ∧ y.1.1 = none)

/-- Follows the spec's words for the configuration round trip: creating the
storage succeeds, saving the plain-text unit (title "MyUnit", data
"MyData") succeeds, serializing the instance configuration succeeds with a
non-nil blob, reconstructing an instance from the blob via the loader
succeeds, and loading the saved unit's original ID from the reconstructed
instance succeeds with a unit structurally equal to the original. -/
def cfgRoundTripOk {σ ι κ : Type} (ops : StorageOps σ ι κ)
    (lf : LoadCfg σ ι κ) (ids : Nat → String) (st : σ) : Prop :=
  let u := AUnit.textPlain (ids 0) "MyUnit" "MyData"
  let p := ops.createStorage st
  let q := ops.create p.1 p.2
  let r := ops.saveUnit p.1 (some u) q.2
  let m := ops.marshal p.1 r.2
  q.1 = false ∧ r.1 = false ∧ m.1.2 = false ∧ ops.cfgIsNil m.1.1 = false ∧
    (let w := lf m.1.1 m.2
     w.1.2 = false ∧
       ∃ s2, w.1.1 = some s2 ∧
         (let y := ops.loadUnit s2 u.id w.2
          y.1.2 = false ∧ ∃ v, y.1.1 = some v ∧ unitEqual u v = true))

/-- Follows the spec's words for the "unusable before creation" scenario:
on a fresh, never-created instance, saving a unit fails, removing a unit
fails, and loading the identifier "123" fails with a nil unit. -/
def uncreatedOpsFailOk {σ ι κ : Type} (ops : StorageOps σ ι κ)
    (ids : Nat → String) (st : σ) : Prop :=
  let p := ops.createStorage st
  let u := AUnit.base (ids 0) ""
  let q := ops.saveUnit p.1 (some u) p.2
  let r := ops.removeUnit p.1 (some u) q.2
  let w := ops.loadUnit p.1 "123" r.2
  q.1 = true ∧ r.1 = true ∧ w.1.2 = true ∧ w.1.1 = none

/-- Follows the spec's words for durable removal: creating and removing one
instance succeed, and a second fresh instance from the same factory reports
`IsCreated()` false. -/
def removalDurableOk {σ ι κ : Type} (ops : StorageOps σ ι κ) (st : σ) :
    Prop :=
  let p := ops.createStorage st
  let q := ops.create p.1 p.2
  let r := ops.remove p.1 q.2
  let w := ops.createStorage r.2
  q.1 = false ∧ r.1 = false ∧ ops.isCreated w.1 w.2 = false

/-- Follows the spec's words: `Remove()` on a fresh, never-created instance
returns no error. -/
def removeUncreatedOk {σ ι κ : Type} (ops : StorageOps σ ι κ) (st : σ) :
    Prop :=
  let p := ops.createStorage st
  (ops.remove p.1 p.2).1 = false

/-- Follows the spec's words: `Create()` then `Remove()` on a fresh
instance both return no error. -/
def removeCreatedOk {σ ι κ : Type} (ops : StorageOps σ ι κ) (st : σ) :
    Prop :=
  let p := ops.createStorage st
  let q := ops.create p.1 p.2
  q.1 = false ∧ (ops.remove p.1 q.2).1 = false

/-- Follows the spec's words: on a created storage, `SaveUnit(nil)` fails
with an error. -/
def nilSaveRejectedOk {σ ι κ : Type} (ops : StorageOps σ ι κ) (st : σ) :
    Prop :=
  let p := ops.createStorage st
  let q := ops.create p.1 p.2
  q.1 = false ∧ (ops.saveUnit p.1 none q.2).1 = true

/-- Follows the spec's words: on a created storage, `RemoveUnit(nil)` fails
with an error. -/
def nilRemoveRejectedOk {σ ι κ : Type} (ops : StorageOps σ ι κ) (st : σ) :
    Prop :=
  let p := ops.createStorage st
  let q := ops.create p.1 p.2
  q.1 = false ∧ (ops.removeUnit p.1 none q.2).1 = true

/-- Follows the spec's words: on a created storage, `LoadUnit("")` fails
with an error and returns no unit. -/
def emptyIdRejectedOk {σ ι κ : Type} (ops : StorageOps σ ι κ) (st : σ) :
    Prop :=
  let p := ops.createStorage st
  let q := ops.create p.1 p.2
  let w := ops.loadUnit p.1 "" q.2
  q.1 = false ∧ w.1.2 = true ∧ w.1.1 = none

/-! ## A backend that passes the suite yet allows unit operations on a
removed instance

No catalogue scenario performs a unit operation on a removed instance, so
a backend may violate the removed-state half of the spec's invariant while
passing every scenario. -/

/-- The three lifecycle states of the spec's data model. -/
inductive LifeState where
  | uninit | created | removed
deriving DecidableEq, Repr

/-- An instance of the permissive backend: lifecycle state and stored
units. -/
structure BadInst where
  state : LifeState
  units : List AUnit

/-- World state of the permissive backend. -/
structure BadSt where
  insts : List BadInst

/-- Update the `i`-th instance in place (no-op when out of range). -/
def updBadInst : List BadInst → Nat → (BadInst → BadInst) → List BadInst
  | [], _, _ => []
  | m :: ms, 0, f => f m :: ms
  | m :: ms, n + 1, f => m :: updBadInst ms n f

/-- The permissive backend: identical to `memOps` except that unit
operations are refused only in the `uninit` state, not in the `removed`
state. -/
def badOps : StorageOps BadSt Nat Nat where
  createStorage st := (st.insts.length, ⟨st.insts ++ [⟨.uninit, []⟩]⟩)
  create i st :=
    (false, ⟨updBadInst st.insts i fun m => ⟨.created, m.units⟩⟩)
  isCreated i st :=
    match st.insts.get? i with
    | some m => m.state == .created
    | none => false
  remove i st := (false, ⟨updBadInst st.insts i fun _ => ⟨.removed, []⟩⟩)
  saveUnit i u st :=
    match st.insts.get? i, u with
    | some m, some uu =>
      if m.state ≠ .uninit then
        (false, ⟨updBadInst st.insts i fun m => ⟨m.state, putUnit m.units uu⟩⟩)
      else (true, st)
    | _, _ => (true, st)
  loadUnit i s st :=
    match st.insts.get? i with
    | some m =>
      if m.state ≠ .uninit ∧ s ≠ "" then
        match findUnit m.units s with
        | some u => ((some u, false), st)
        | none => ((none, true), st)
      else ((none, true), st)
    | none => ((none, true), st)
  removeUnit i u st :=
    match st.insts.get? i, u with
    | some m, some uu =>
      if m.state ≠ .uninit then
        (false, ⟨updBadInst st.insts i fun m => ⟨m.state, delUnit m.units uu.id⟩⟩)
      else (true, st)
    | _, _ => (true, st)
  marshal i st := ((i, false), st)
  cfgIsNil _ := false

/-- Config loader of the permissive backend. -/
def badLoad : LoadCfg BadSt Nat Nat := fun k st => ((some k, false), st)

/-- On `badOps`: create a fresh instance, create it, remove it, then
perform all three unit operations on the removed-then-unreinitialized
instance; the probe records the save error, the load result, and the
remove-unit error. -/
def badRemovedProbe : Bool × (Option AUnit × Bool) × Bool :=
  let st0 : BadSt := ⟨[]⟩
  let p := badOps.createStorage st0
  let q := badOps.create p.1 p.2
  let r := badOps.remove p.1 q.2
  let sv := badOps.saveUnit p.1 (some (AUnit.base "x" "t")) r.2
  let ld := badOps.loadUnit p.1 "x" sv.2
  let rm := badOps.removeUnit p.1 (some (AUnit.base "x" "t")) ld.2
  (sv.1, (ld.1, rm.1))

/-- Default catalogue entry, used for out-of-range catalogue lookups. -/
def dfltCase (σ ι κ : Type) : TestCase σ ι κ :=
  ⟨"", fun _ _ _ st => (⟨false, false, [], []⟩, st)⟩

/-! ## Theorems -/

/-- `unitEqualOpt` succeeds exactly on a non-nil, structurally equal unit. -/
theorem unitEqualOpt_eq_true_iff (u : AUnit) (o : Option AUnit) :
    unitEqualOpt u o = true ↔ ∃ v, o = some v ∧ unitEqual u v = true := by
  cases o <;> simp [unitEqualOpt]

/-- A nested round-trip sub-test passes exactly when the backend meets the
required outcome `roundTripOk`. -/
theorem simpleRoundTrip_ok_iff {σ ι κ : Type} (ops : StorageOps σ ι κ)
    (u : AUnit) (st : σ) :
    ((simpleRoundTrip ops u st).1.ok = true) ↔ roundTripOk ops u st := by
  simp only [simpleRoundTrip, roundTripOk]
  generalize ops.createStorage st = p
  obtain ⟨s, st1⟩ := p
  dsimp only
  generalize ops.create s st1 = q
  obtain ⟨e1, st2⟩ := q
  dsimp only
  generalize ops.saveUnit s (some u) st2 = r
  obtain ⟨e2, st3⟩ := r
  dsimp only
  generalize ops.loadUnit s u.id st3 = w
  obtain ⟨⟨lu, e3⟩, st4⟩ := w
  dsimp only
  rcases lu with _ | v
  · simp [SubOutcome.ok]
  · simp only [Option.some.injEq, exists_eq_left']
    generalize ops.removeUnit s (some v) st4 = x
    obtain ⟨e4, st5⟩ := x
    dsimp only
    generalize ops.loadUnit s v.id st5 = y
    obtain ⟨⟨ru, e5⟩, st6⟩ := y
    simp [SubOutcome.ok, unitEqualOpt, Option.isNone_iff_eq_none, and_assoc]

/-- The nested sub-tests are named by the unit type tags, in fixture
order. -/
theorem runSubtests_names {σ ι κ : Type} (ops : StorageOps σ ι κ)
    (us : List AUnit) (st : σ) :
    (runSubtests ops us st).1.map Prod.fst = us.map fun u => u.type.str := by
  induction us generalizing st with
  | nil => rfl
  | cons u us ih => simp [runSubtests, ih]

/-- All nested sub-tests pass exactly when every fixture meets its required
round-trip outcome. -/
theorem runSubtests_ok_iff {σ ι κ : Type} (ops : StorageOps σ ι κ)
    (us : List AUnit) (st : σ) :
    (((runSubtests ops us st).1.all fun p => p.2.ok) = true) ↔
      allRoundTripsOk ops us st := by
  induction us generalizing st with
  | nil => simp [runSubtests, allRoundTripsOk]
  | cons u us ih =>
    simp [runSubtests, allRoundTripsOk, simpleRoundTrip_ok_iff, ih]

/-- C1: the "supported simple unit types" scenario exercises exactly the
five simple variants — plain unit, plain text, markdown text, code text,
and a todo unit whose two items are "Data1"/done and "Data2"/not done — one
nested sub-test per variant, and it passes exactly when every variant meets
the required round trip: fresh storage creation succeeds, saving the unit
succeeds, loading by the unit's ID succeeds with a unit structurally equal
to the saved one, removing the loaded unit succeeds, and reloading the same
ID fails with an error and a nil unit. -/
theorem c1_simple_unit_round_trips {σ ι κ : Type} (ops : StorageOps σ ι κ)
    (l : Option (LoadCfg σ ι κ)) (ids : Nat → String) (st : σ) :
    (testSimpleUnits ops l ids st).1.skipped = false ∧
    (testSimpleUnits ops l ids st).1.asserts = [] ∧
    (testSimpleUnits ops l ids st).1.subtests.map Prod.fst =
      [Ty.base.str, Ty.textPlain.str, Ty.textMarkdown.str, Ty.textCode.str,
       Ty.todo.str] ∧
    fixturesList ids =
      [AUnit.base (ids 0) "MyUnit",
       AUnit.textPlain (ids 1) "MyUnit" "MyData",
       AUnit.textMarkdown (ids 2) "MyUnit" "MyData",
       AUnit.textCode (ids 3) "MyUnit" "MyData" "MyLang",
       AUnit.todo (ids 4) "MyUnit" [⟨"Data1", true⟩, ⟨"Data2", false⟩]] ∧
    ((testSimpleUnits ops l ids st).1.allPass = true ↔
      allRoundTripsOk ops (fixturesList ids) st) := by
  refine ⟨rfl, rfl, ?_, rfl, ?_⟩
  · show (runSubtests ops (fixturesList ids) st).1.map Prod.fst = _
    rw [runSubtests_names]
    rfl
  · rw [show (testSimpleUnits ops l ids st).1.allPass =
        ((runSubtests ops (fixturesList ids) st).1.all fun p => p.2.ok)
      from rfl]
    exact runSubtests_ok_iff ops (fixturesList ids) st

/-- C2: the "list unit" scenario builds a composite list holding exactly
one instance of every simple variant, saves the five children individually
and then the list, and passes exactly when the backend meets the required
outcome `listRoundTripOk`: load of the list ID error-free and deeply,
order-sensitively equal to the original, then removal, then reload failing
with an error and a nil unit. -/
theorem c2_list_unit_round_trip {σ ι κ : Type} (ops : StorageOps σ ι κ)
    (l : Option (LoadCfg σ ι κ)) (ids : Nat → String) (st : σ) :
    (testListUnit ops l ids st).1.skipped = false ∧
    listFixture ids = AUnit.list (ids 5) "MyUnit"
      [AUnit.base (ids 0) "MyUnit",
       AUnit.textPlain (ids 1) "MyUnit" "MyData",
       AUnit.textMarkdown (ids 2) "MyUnit" "MyData",
       AUnit.textCode (ids 3) "MyUnit" "MyData" "MyLang",
       AUnit.todo (ids 4) "MyUnit" [⟨"Data1", true⟩, ⟨"Data2", false⟩]] ∧
    ((testListUnit ops l ids st).1.allPass = true ↔
      listRoundTripOk ops ids st) := by
  have key : (testListUnit ops l ids st).1.skipped = false ∧
      ((testListUnit ops l ids st).1.allPass = true ↔
        listRoundTripOk ops ids st) := by
    simp only [testListUnit, listRoundTripOk]
    generalize ops.createStorage st = p
    obtain ⟨s, st1⟩ := p
    dsimp only
    generalize ops.create s st1 = q
    obtain ⟨b0, st2⟩ := q
    dsimp only
    generalize ops.saveUnit s (some (fixtureBase ids)) st2 = r1
    obtain ⟨b1, st3⟩ := r1
    dsimp only
    generalize ops.saveUnit s (some (fixtureTextPlain ids)) st3 = r2
    obtain ⟨b2, st4⟩ := r2
    dsimp only
    generalize ops.saveUnit s (some (fixtureTextMarkdown ids)) st4 = r3
    obtain ⟨b3, st5⟩ := r3
    dsimp only
    generalize ops.saveUnit s (some (fixtureTextCode ids)) st5 = r4
    obtain ⟨b4, st6⟩ := r4
    dsimp only
    generalize ops.saveUnit s (some (fixtureTodo ids)) st6 = r5
    obtain ⟨b5, st7⟩ := r5
    dsimp only
    generalize ops.saveUnit s (some (listFixture ids)) st7 = r6
    obtain ⟨b6, st8⟩ := r6
    dsimp only
    generalize ops.loadUnit s (listFixture ids).id st8 = w
    obtain ⟨⟨lu, b7⟩, st9⟩ := w
    dsimp only
    rcases lu with _ | v
    · simp [Outcome.allPass]
    · simp only [Option.some.injEq, exists_eq_left']
      generalize ops.removeUnit s (some v) st9 = x
      obtain ⟨b8, st10⟩ := x
      dsimp only
      generalize ops.loadUnit s v.id st10 = y
      obtain ⟨⟨ru, b9⟩, st11⟩ := y
      simp [Outcome.allPass, unitEqualOpt, Option.isNone_iff_eq_none,
        and_assoc]
  exact ⟨key.1, rfl, key.2⟩

/-- C3: with a config loader supplied, the configuration round-trip
scenario is not skipped, and it passes exactly when the backend meets the
required outcome `cfgRoundTripOk`: save the plain-text unit "MyUnit"/
"MyData", serialize the configuration, reconstruct an instance from the
blob without error, and load the original ID from the reconstructed
instance obtaining a structurally equal unit. -/
theorem c3_config_round_trip {σ ι κ : Type} (ops : StorageOps σ ι κ)
    (lf : LoadCfg σ ι κ) (ids : Nat → String) (st : σ) :
    (testConfigRoundTrip ops (some lf) ids st).1.skipped = false ∧
    ((testConfigRoundTrip ops (some lf) ids st).1.allPass = true ↔
      cfgRoundTripOk ops lf ids st) := by
  simp only [testConfigRoundTrip, cfgRoundTripOk]
  generalize ops.createStorage st = p
  obtain ⟨s, st1⟩ := p
  dsimp only
  generalize ops.create s st1 = q
  obtain ⟨b0, st2⟩ := q
  dsimp only
  generalize ops.saveUnit s (some (AUnit.textPlain (ids 0) "MyUnit" "MyData")) st2 = r
  obtain ⟨b1, st3⟩ := r
  dsimp only
  generalize ops.marshal s st3 = m
  obtain ⟨⟨cfg, b2⟩, st4⟩ := m
  dsimp only
  generalize lf cfg st4 = w
  obtain ⟨⟨so, b3⟩, st5⟩ := w
  dsimp only
  rcases so with _ | s2
  · simp [Outcome.allPass]
  · simp only [Option.some.injEq, exists_eq_left']
    generalize ops.loadUnit s2 (AUnit.textPlain (ids 0) "MyUnit" "MyData").id st5 = y
    obtain ⟨⟨lv, b4⟩, st6⟩ := y
    dsimp only
    rcases lv with _ | v
    · simp [Outcome.allPass, unitEqualOpt]
    · simp [Outcome.allPass, unitEqualOpt, and_assoc]

/-- The "list unit" scenario registers no nested sub-tests. -/
theorem testListUnit_subtests {σ ι κ : Type} (ops : StorageOps σ ι κ)
    (l : Option (LoadCfg σ ι κ)) (ids : Nat → String) (st : σ) :
    (testListUnit ops l ids st).1.subtests = [] := by
  simp only [testListUnit]
  split <;> rfl

/-- C4 counterexample: the permissive backend `badOps` passes every
scenario of the suite, yet on a removed-then-unreinitialized instance all
three unit operations succeed (save and remove-unit return no error, load
returns the saved unit without error): the suite does not require unit
operations to fail on a removed instance. -/
theorem c4_counterexample :
    (((RunStorageTests badOps (some badLoad) idn ⟨[]⟩).1.all
        fun p => p.2.allPass) = true) ∧
    badRemovedProbe = (false, ((some (AUnit.base "x" "t"), false), false)) :=
  ⟨rfl, rfl⟩

/-- C4 (amended): the suite requires unit operations to fail only on a
fresh, never-created instance — the "can not be used before it will be
created" scenario passes exactly when `SaveUnit` and `RemoveUnit` of a unit
return an error and `LoadUnit("123")` returns an error together with no
unit.  No catalogue scenario performs a unit operation on a
removed-then-unreinitialized instance. -/
theorem c4_uncreated_ops_fail {σ ι κ : Type} (ops : StorageOps σ ι κ)
    (l : Option (LoadCfg σ ι κ)) (ids : Nat → String) (st : σ) :
    (testNotUsableBeforeCreate ops l ids st).1.skipped = false ∧
    ((testNotUsableBeforeCreate ops l ids st).1.allPass = true ↔
      uncreatedOpsFailOk ops ids st) := by
  refine ⟨rfl, ?_⟩
  simp [testNotUsableBeforeCreate, uncreatedOpsFailOk, Outcome.allPass,
    Option.isNone_iff_eq_none, and_assoc]

/-- C5 counterexample: on a concrete run, the catalogue entry titled
"Storage can handle list unit" registers no nested sub-tests at all, so it
does not register one nested sub-test per unit type. -/
theorem c5_counterexample :
    ((tests MemSt Nat Nat).get ⟨7, by decide⟩).title =
      "Storage can handle list unit" ∧
    (((tests MemSt Nat Nat).get ⟨7, by decide⟩).testFunc memOps none idn
      ⟨[]⟩).1.subtests = [] :=
  ⟨rfl, rfl⟩

/-- C5 (amended): `RunStorageTests` registers one independently named
sub-test per catalogue entry (twelve pairwise distinct titles, in
catalogue order); within the "supported simple unit types" scenario it
additionally registers one nested sub-test per unit type (five pairwise
distinct names); the "list unit" scenario registers no nested sub-tests. -/
theorem c5_subtest_registration {σ ι κ : Type} (ops : StorageOps σ ι κ)
    (l : Option (LoadCfg σ ι κ)) (ids : Nat → String) (st : σ) :
    (RunStorageTests ops l ids st).1.map Prod.fst =
      ["Storage is not created initially when initialized first time with given arguments",
       "Storage can be successfully created",
       "Storage can not be used before it will be created",
       "Storage can be removed if not created before",
       "Storage can be removed if was created before",
       "Storage is not created when removed",
       "Storage can handle all supported simple unit types",
       "Storage can handle list unit",
       "Nil unit cannot be saved",
       "Nil unit cannot be removed",
       "Empty ID cannot be used to load unit",
       "Directory config can be JSON serialized/deserialized "] ∧
    (["Storage is not created initially when initialized first time with given arguments",
      "Storage can be successfully created",
      "Storage can not be used before it will be created",
      "Storage can be removed if not created before",
      "Storage can be removed if was created before",
      "Storage is not created when removed",
      "Storage can handle all supported simple unit types",
      "Storage can handle list unit",
      "Nil unit cannot be saved",
      "Nil unit cannot be removed",
      "Empty ID cannot be used to load unit",
      "Directory config can be JSON serialized/deserialized "] :
        List String).Nodup ∧
    (testSimpleUnits ops l ids st).1.subtests.map Prod.fst =
      [Ty.base.str, Ty.textPlain.str, Ty.textMarkdown.str, Ty.textCode.str,
       Ty.todo.str] ∧
    ([Ty.base.str, Ty.textPlain.str, Ty.textMarkdown.str, Ty.textCode.str,
      Ty.todo.str] : List String).Nodup ∧
    (testListUnit ops l ids st).1.subtests = [] := by
  refine ⟨?_, by decide, ?_, by decide, testListUnit_subtests ops l ids st⟩
  · simp [RunStorageTests, runCases, tests]
  · show (runSubtests ops (fixturesList ids) st).1.map Prod.fst = _
    rw [runSubtests_names]
    rfl

/-- C6: with the loader absent (the nil marker), the configuration
round-trip scenario is skipped: for every backend it returns the skip
outcome with no assertions and no nested sub-tests, leaves the world state
untouched (so no storage operation is performed), and the skip counts
neither as a failure nor as a pass. -/
theorem c6_skip_without_loader {σ ι κ : Type} (ops : StorageOps σ ι κ)
    (ids : Nat → String) (st : σ) :
    testConfigRoundTrip ops none ids st = (⟨true, false, [], []⟩, st) ∧
    (testConfigRoundTrip ops none ids st).1.failed = false ∧
    (testConfigRoundTrip ops none ids st).1.allPass = false :=
  ⟨rfl, rfl, rfl⟩

/-- C7: the "not created when removed" scenario passes exactly when
creating then removing the first instance succeed and a second, freshly
created instance from the same factory reports `IsCreated()` false. -/
theorem c7_removal_durable {σ ι κ : Type} (ops : StorageOps σ ι κ)
    (l : Option (LoadCfg σ ι κ)) (ids : Nat → String) (st : σ) :
    (testNotCreatedWhenRemoved ops l ids st).1.skipped = false ∧
    ((testNotCreatedWhenRemoved ops l ids st).1.allPass = true ↔
      removalDurableOk ops st) := by
  refine ⟨rfl, ?_⟩
  simp [testNotCreatedWhenRemoved, removalDurableOk, Outcome.allPass,
    and_assoc]

/-- C8: the suite requires `Remove()` to return no error both on a fresh,
never-created instance and on an instance created first without error. -/
theorem c8_remove_always_succeeds {σ ι κ : Type} (ops : StorageOps σ ι κ)
    (l : Option (LoadCfg σ ι κ)) (ids : Nat → String) (st st' : σ) :
    ((testRemoveNotCreated ops l ids st).1.allPass = true ↔
      removeUncreatedOk ops st) ∧
    ((testRemoveCreated ops l ids st').1.allPass = true ↔
      removeCreatedOk ops st') := by
  constructor <;>
    simp [testRemoveNotCreated, testRemoveCreated, removeUncreatedOk,
      removeCreatedOk, Outcome.allPass, and_assoc]

/-- C9: on a created storage, the suite requires `SaveUnit(nil)` to fail,
`RemoveUnit(nil)` to fail, and `LoadUnit("")` to fail and return no
unit. -/
theorem c9_invalid_arguments_rejected {σ ι κ : Type} (ops : StorageOps σ ι κ)
    (l : Option (LoadCfg σ ι κ)) (ids : Nat → String) (s1 s2 s3 : σ) :
    ((testNilSave ops l ids s1).1.allPass = true ↔
      nilSaveRejectedOk ops s1) ∧
    ((testNilRemove ops l ids s2).1.allPass = true ↔
      nilRemoveRejectedOk ops s2) ∧
    ((testEmptyIdLoad ops l ids s3).1.allPass = true ↔
      emptyIdRejectedOk ops s3) := by
  refine ⟨?_, ?_, ?_⟩ <;>
    simp [testNilSave, testNilRemove, testEmptyIdLoad, nilSaveRejectedOk,
      nilRemoveRejectedOk, emptyIdRejectedOk, Outcome.allPass,
      Option.isNone_iff_eq_none, and_assoc]

/-- C10: every catalogue scenario except the configuration round trip (the
last entry, index 11) never invokes the loader parameter: running it with
any two loader values — the nil marker included — produces the same outcome
and the same final world state on every backend. -/
theorem c10_loader_independent {σ ι κ : Type} (i : Nat) (h : i < 11)
    (ops : StorageOps σ ι κ) (ids : Nat → String) (st : σ)
    (l1 l2 : Option (LoadCfg σ ι κ)) :
    ((tests σ ι κ).getD i (dfltCase σ ι κ)).testFunc ops l1 ids st =
      ((tests σ ι κ).getD i (dfltCase σ ι κ)).testFunc ops l2 ids st := by
  interval_cases i <;> rfl

/-- Witness for C10 at the first catalogue entry, with the nil marker
against the in-memory backend's loader. -/
theorem c10_loader_independent_witness :
    ((tests MemSt Nat Nat).getD 0 (dfltCase MemSt Nat Nat)).testFunc memOps
        none idn ⟨[]⟩ =
      ((tests MemSt Nat Nat).getD 0 (dfltCase MemSt Nat Nat)).testFunc memOps
        (some memLoad) idn ⟨[]⟩ :=
  c10_loader_independent 0 (by decide) memOps idn ⟨[]⟩ none (some memLoad)

end StorageTests
